import Mathlib

/-!
Shallow embedding of the heart-rate stabilization core of the vibesense
repository (`src/vibesense/app/heart_core.py`), together with theorems
settling the specification claims about it.

Heart rates and timestamps are modelled as rationals; the Python `time.time()`
clock is passed in explicitly as a parameter near each stateful operation.
-/

namespace VibeSense

/-- `DEFAULT_USER` from heart_core.py. -/
def DEFAULT_USER : String := "default"

/-- `time_of_day_bucket` from heart_core.py, with the wall-clock hour passed
explicitly. -/
def timeOfDayBucket (hour : Nat) : String :=
  if 5 ≤ hour ∧ hour < 12 then "morning"
  else if 12 ≤ hour ∧ hour < 17 then "afternoon"
  else if 17 ≤ hour ∧ hour < 22 then "evening"
  else "night"

/-- The ordered zone labels produced by `HeartState.zone`. -/
inductive Zone
  | rest
  | light
  | moderate
  | hard
  | peak
  | redline
  | supra
  deriving DecidableEq, Repr

/-- Index of a zone in the calm-to-intense band ordering. -/
def Zone.idx : Zone → Nat
  | .rest => 0
  | .light => 1
  | .moderate => 2
  | .hard => 3
  | .peak => 4
  | .redline => 5
  | .supra => 6

/-- The string label `HeartState.zone` returns for each band. -/
def Zone.label : Zone → String
  | .rest => "rest"
  | .light => "light"
  | .moderate => "moderate"
  | .hard => "hard"
  | .peak => "peak"
  | .redline => "redline"
  | .supra => "supra"

/-- The threshold cascade of `HeartState.zone` (heart_core.py lines 50-64;
identically in the superseded top-level `src/heart_core.py` lines 27-41). -/
def zone (bpm : ℚ) : Zone :=
  if bpm < 60 then .rest
  else if bpm < 90 then .light
  else if bpm < 120 then .moderate
  else if bpm < 150 then .hard
  else if bpm < 180 then .peak
  else if bpm < 200 then .redline
  else .supra

/-- The `HeartState` dataclass from heart_core.py. -/
structure HeartState where
  bpm : ℚ
  user_id : String := DEFAULT_USER
  mood : Option String := none
  hrv_ms : Option ℚ := none
  workout_type : Option String := none
  resting_hr : Option ℚ := none
  time_of_day : Option String := none
  timestamp : ℚ
  deriving DecidableEq, Repr

/-- The `HeartStateDTO` pydantic model from heart_core.py. -/
structure HeartStateDTO where
  user_id : Option String := none
  bpm : ℚ
  zone : Option String := none
  mood : Option String := none
  timestamp : ℚ
  playlist_hint : Option String := none
  hrv_ms : Option ℚ := none
  workout_type : Option String := none
  resting_hr : Option ℚ := none
  time_of_day : Option String := none
  deriving DecidableEq, Repr

/-- `HeartState.to_dto` from heart_core.py. -/
def HeartState.toDTO (s : HeartState) : HeartStateDTO :=
  { user_id := some s.user_id
    bpm := s.bpm
    zone := some (zone s.bpm).label
    mood := s.mood
    timestamp := s.timestamp
    playlist_hint := none
    hrv_ms := s.hrv_ms
    workout_type := s.workout_type
    resting_hr := s.resting_hr
    time_of_day := s.time_of_day }

/-- The `HeartStabilizerConfig` dataclass from heart_core.py. -/
structure HeartStabilizerConfig where
  smoothing_window : Nat := 5
  min_bpm_delta : ℚ := 5
  min_seconds_between_updates : ℚ := 8
  min_zone_dwell : ℚ := 20
  fast_zone_delta : ℚ := 12
  deriving DecidableEq, Repr

/-- The default-constructed `HeartStabilizerConfig()`. -/
def defaultConfig : HeartStabilizerConfig := {}

/-- The `HeartRateSample` dataclass from heart_core.py. -/
structure HeartRateSample where
  ts : ℚ
  bpm : ℚ
  deriving DecidableEq, Repr

/-- The mutable fields of a `HeartRateStabilizer` instance: the bounded
sample deque, the last published state and the last publish timestamp. -/
structure StabState where
  samples : List HeartRateSample := []
  latest : Option HeartState := none
  last_publish_ts : ℚ := 0
  deriving DecidableEq, Repr

/-- A freshly constructed `HeartRateStabilizer`. -/
def StabState.init : StabState := {}

/-- `deque(maxlen := cap).append`: with the deque at capacity, the leftmost
(oldest) element is discarded before the new element is appended on the
right; a zero-capacity deque stays empty. -/
def dequeAppend (cap : Nat) (xs : List HeartRateSample) (s : HeartRateSample) :
    List HeartRateSample :=
  if cap = 0 then []
  else if cap ≤ xs.length then xs.tail ++ [s]
  else xs ++ [s]

/-- `HeartRateStabilizer._smoothed_bpm`: mean of the window, `0` when empty. -/
def smoothedBpm : List HeartRateSample → ℚ
  | [] => 0
  | x :: xs =>
      ((x :: xs).map HeartRateSample.bpm).sum / (x :: xs).length

/-- The non-rate inputs of `HeartRateStabilizer.push` (mood, user id and the
opaque pass-through metadata). -/
structure PushMeta where
  mood : Option String := none
  user_id : String := DEFAULT_USER
  hrv_ms : Option ℚ := none
  workout_type : Option String := none
  resting_hr : Option ℚ := none
  time_of_day : Option String := none
  deriving DecidableEq, Repr

/-- The `candidate` `HeartState` built inside `push` from the smoothed bpm. -/
def mkCandidate (bpm : ℚ) (m : PushMeta) (ts : ℚ) : HeartState :=
  { bpm := bpm
    mood := m.mood
    timestamp := ts
    user_id := m.user_id
    hrv_ms := m.hrv_ms
    workout_type := m.workout_type
    resting_hr := m.resting_hr
    time_of_day := m.time_of_day }

/-- `HeartRateStabilizer.push` (heart_core.py lines 121-169): append the
sample, build the smoothed candidate, publish unconditionally on bootstrap,
otherwise run the jitter / rate-limit / dwell gates in order. Returns the
published state (or `none` when suppressed) together with the stabilizer
state after the call. -/
def push (cfg : HeartStabilizerConfig) (st : StabState) (ts bpm : ℚ)
    (m : PushMeta) : Option HeartState × StabState :=
  let samples := dequeAppend cfg.smoothing_window st.samples ⟨ts, bpm⟩
  let candidate := mkCandidate (smoothedBpm samples) m ts
  match st.latest with
  | none =>
      (some candidate,
        { samples := samples, latest := some candidate, last_publish_ts := ts })
  | some prev =>
      let delta := |candidate.bpm - prev.bpm|
      let sameZone := zone candidate.bpm = zone prev.bpm
      let elapsed := ts - st.last_publish_ts
      if sameZone ∧ delta < cfg.min_bpm_delta then
        (none, { st with samples := samples })
      else if elapsed < cfg.min_seconds_between_updates ∧
          ¬(¬sameZone ∧ cfg.fast_zone_delta ≤ delta) then
        (none, { st with samples := samples })
      else if ¬sameZone ∧ delta < cfg.fast_zone_delta ∧
          elapsed < cfg.min_zone_dwell then
        (none, { st with samples := samples })
      else
        (some candidate,
          { samples := samples, latest := some candidate, last_publish_ts := ts })

/-- `HeartRateStabilizer.latest`: a side-effect-free read of the last
published state. -/
def StabState.latestReading (st : StabState) : Option HeartState :=
  st.latest

/-- The `HeartIngestRequest` pydantic model from heart_core.py. -/
structure HeartIngestRequest where
  bpm : ℚ
  mood : Option String := none
  user_id : Option String := none
  hrv_ms : Option ℚ := none
  workout_type : Option String := none
  resting_hr : Option ℚ := none
  time_of_day : Option String := none
  deriving DecidableEq, Repr

/-- A `HeartUserContext`: the per-user `HeartStateRepository` (its `_latest`
field) paired with the per-user stabilizer state. -/
structure HeartUserContext where
  repo : Option HeartState := none
  stab : StabState := StabState.init
  deriving DecidableEq, Repr

/-- The `_contexts` dict of `HeartService`, as a map from user id to
context. -/
structure ServiceState where
  contexts : String → Option HeartUserContext

/-- A freshly constructed `HeartService`: no user contexts yet. -/
def ServiceState.init : ServiceState := ⟨fun _ => none⟩

/-- `HeartService._context`: return the cached context for `uid`, or a fresh
repository/stabilizer pair on first contact. -/
def contextFor (sv : ServiceState) (uid : String) : HeartUserContext :=
  (sv.contexts uid).getD {}

/-- Store `ctx` as the context of `uid` (the dict write in `_context`,
and the in-place mutation of a cached context by `ingest`). -/
def ServiceState.setCtx (sv : ServiceState) (uid : String)
    (ctx : HeartUserContext) : ServiceState :=
  ⟨fun u => if u = uid then some ctx else sv.contexts u⟩

/-- The ad hoc `HeartState` that `ingest` fabricates directly from the raw
sample when the stabilizer suppressed and no stable state exists. -/
def adHocState (req : HeartIngestRequest) (uid tod : String) (ts : ℚ) :
    HeartState :=
  { bpm := req.bpm
    mood := req.mood
    user_id := uid
    hrv_ms := req.hrv_ms
    workout_type := req.workout_type
    resting_hr := req.resting_hr
    time_of_day := some tod
    timestamp := ts }

/-- The `PushMeta` that `ingest` hands to `push` for a request. -/
def ingestMeta (req : HeartIngestRequest) (uid tod : String) : PushMeta :=
  { mood := req.mood
    user_id := uid
    hrv_ms := req.hrv_ms
    workout_type := req.workout_type
    resting_hr := req.resting_hr
    time_of_day := some tod }

/-- The user id `ingest` resolves for a request (`data.user_id or DEFAULT_USER`). -/
def ingestUid (req : HeartIngestRequest) : String :=
  req.user_id.getD DEFAULT_USER

/-- The time-of-day bucket `ingest` resolves for a request
(`data.time_of_day or time_of_day_bucket()`). -/
def ingestTod (req : HeartIngestRequest) (hour : Nat) : String :=
  req.time_of_day.getD (timeOfDayBucket hour)

/-- The `ctx.stabilizer.push(...)` call `ingest` makes for a request. -/
def ingestPush (cfg : HeartStabilizerConfig) (sv : ServiceState) (ts : ℚ)
    (hour : Nat) (req : HeartIngestRequest) : Option HeartState × StabState :=
  push cfg (contextFor sv (ingestUid req)).stab ts req.bpm
    (ingestMeta req (ingestUid req) (ingestTod req hour))

/-- `HeartService.ingest` (heart_core.py lines 222-252): resolve the user id
and time-of-day bucket, push the sample through that user's stabilizer, and
on suppression surface the stabilizer's (or repository's) current stable
state, falling back to an ad hoc reading. The wall clock `ts` and the local
hour feeding `time_of_day_bucket` are explicit parameters. -/
def ingest (cfg : HeartStabilizerConfig) (sv : ServiceState) (ts : ℚ)
    (hour : Nat) (req : HeartIngestRequest) : HeartStateDTO × ServiceState :=
  let uid := ingestUid req
  let tod := ingestTod req hour
  let ctx := contextFor sv uid
  let res := ingestPush cfg sv ts hour req
  match res.1 with
  | some state =>
      (state.toDTO, sv.setCtx uid { repo := some state, stab := res.2 })
  | none =>
      match res.2.latest.orElse (fun _ => ctx.repo) with
      | some stable =>
          (stable.toDTO, sv.setCtx uid { repo := ctx.repo, stab := res.2 })
      | none =>
          let state := adHocState req uid tod ts
          (state.toDTO, sv.setCtx uid { repo := some state, stab := res.2 })

/-- `HeartService.latest` (heart_core.py lines 254-261). -/
def serviceLatest (sv : ServiceState) (uid : Option String) :
    Option HeartStateDTO :=
  match sv.contexts (uid.getD DEFAULT_USER) with
  | none => none
  | some ctx => (ctx.stab.latest.orElse (fun _ => ctx.repo)).map HeartState.toDTO

/-- Modelled from the spec: `HeartService.reset` is invoked by the `/reset`
endpoint (`reset_state`, heart_api.py lines 175-184) but no `reset` method
appears in the `HeartService` under src; per §4.3 of the spec,
"`reset(userKey)` discards a user's Stabilizer/Repository state entirely",
so it drops the user's registry entry. -/
def reset (sv : ServiceState) (uid : String) : ServiceState :=
  ⟨fun u => if u = uid then none else sv.contexts u⟩

/-- One raw-sample input to the stabilizer, for reasoning about sequences of
`push` calls. -/
structure PushInput where
  ts : ℚ
  bpm : ℚ
  m : PushMeta := {}
  deriving DecidableEq, Repr

/-- Run a sequence of `push` calls, collecting each call's result. -/
def runPushes (cfg : HeartStabilizerConfig) (st : StabState) :
    List PushInput → List (Option HeartState) × StabState
  | [] => ([], st)
  | i :: rest =>
      let r := push cfg st i.ts i.bpm i.m
      let t := runPushes cfg r.2 rest
      (r.1 :: t.1, t.2)

/-- Push metadata with all optional fields at their defaults. -/
def m0 : PushMeta := {}

/-! ### Helper lemmas about `push` -/

/-- `push` always appends the raw sample to the window, whatever the publish
outcome. -/
theorem push_samples_eq (cfg : HeartStabilizerConfig) (st : StabState)
    (ts bpm : ℚ) (m : PushMeta) :
    (push cfg st ts bpm m).2.samples =
      dequeAppend cfg.smoothing_window st.samples ⟨ts, bpm⟩ := by
  cases hst : st.latest
  · simp only [push, hst]
  · simp only [push, hst]
    split_ifs <;> rfl

/-- A suppressed `push` call changes nothing but the window. -/
theorem push_none_frame (cfg : HeartStabilizerConfig) (st : StabState)
    (ts bpm : ℚ) (m : PushMeta) (h : (push cfg st ts bpm m).1 = none) :
    (push cfg st ts bpm m).2 =
      { st with samples := dequeAppend cfg.smoothing_window st.samples ⟨ts, bpm⟩ } := by
  revert h
  cases hst : st.latest
  · simp only [push, hst]
    intro h
    exact absurd h (by simp)
  · simp only [push, hst]
    split_ifs <;> intro h <;> first | rfl | exact absurd h (by simp)

/-- `push` suppresses only when a previously published reading exists. -/
theorem push_none_prev (cfg : HeartStabilizerConfig) (st : StabState)
    (ts bpm : ℚ) (m : PushMeta) (h : (push cfg st ts bpm m).1 = none) :
    ∃ prev, st.latest = some prev := by
  cases hst : st.latest
  · exact absurd h (by simp [push, hst])
  · exact ⟨_, rfl⟩

/-! ### Claim theorems -/

/-- C1 (counterexample): with the default config, pushing 70 on a fresh
stabilizer and then 95 one second later does NOT publish: the second `push`
returns `none`, contrary to the claim that the fast-delta bypass lets it
through. The smoothed candidate is (70+95)/2 = 82.5, still zone "light". -/
theorem c1_fast_bypass_counterexample :
    (push defaultConfig (push defaultConfig StabState.init 0 70 m0).2 1 95 m0).1
      = none := by
  norm_num [push, dequeAppend, smoothedBpm, mkCandidate, defaultConfig,
    StabState.init, zone, m0, DEFAULT_USER]

/-- C1 (amended): with the default config, pushing 70 on a fresh stabilizer
and then 95 one second later is suppressed: the candidate carries the
smoothed rate 82.5, which is still in zone "light" like the published
reading 70, so no zone change occurs, the fast-delta bypass of the
rate-limiting gate does not apply, and the previously published reading
stays latest. -/
theorem c1_smoothed_same_zone_suppresses :
    (push defaultConfig (push defaultConfig StabState.init 0 70 m0).2 1 95 m0).1
        = none ∧
    smoothedBpm (dequeAppend defaultConfig.smoothing_window
        (push defaultConfig StabState.init 0 70 m0).2.samples ⟨1, 95⟩) = 165 / 2 ∧
    zone (165 / 2) = Zone.light ∧ zone 70 = Zone.light ∧
    (push defaultConfig (push defaultConfig StabState.init 0 70 m0).2 1 95 m0).2.latest
      = some { bpm := 70, timestamp := 0 } := by
  refine ⟨?_, ?_, ?_, ?_, ?_⟩ <;>
    norm_num [push, dequeAppend, smoothedBpm, mkCandidate, defaultConfig,
      StabState.init, zone, m0, DEFAULT_USER, abs_lt]

/-- C2 (counterexample): with the default config, pushing 70 on a fresh
stabilizer and then 80 ten seconds later is NOT suppressed: the second
`push` publishes a reading with the smoothed rate 75 (the smoothed candidate
stays in zone "light", and its delta 5 is not below `min_bpm_delta`),
contrary to the claim that the dwell rule suppresses it. -/
theorem c2_dwell_counterexample :
    (push defaultConfig (push defaultConfig StabState.init 0 70 m0).2 10 80 m0).1
      = some { bpm := 75, timestamp := 10 } := by
  norm_num [push, dequeAppend, smoothedBpm, mkCandidate, defaultConfig,
    StabState.init, zone, m0, DEFAULT_USER]

/-- C2 (amended): with the default config, pushing 70 on a fresh stabilizer,
then 80 at t = 10 s publishes a reading with smoothed rate 75 (same zone
"light", delta 5 not below `min_bpm_delta`, spacing satisfied); pushing 80
again at t = 22 s is then suppressed as same-zone jitter (smoothed rate
230/3, delta 5/3 below `min_bpm_delta`). -/
theorem c2_smoothed_outcomes :
    (push defaultConfig (push defaultConfig StabState.init 0 70 m0).2 10 80 m0).1
        = some { bpm := 75, timestamp := 10 } ∧
    (push defaultConfig
        (push defaultConfig (push defaultConfig StabState.init 0 70 m0).2 10 80 m0).2
        22 80 m0).1 = none := by
  refine ⟨?_, ?_⟩ <;>
    norm_num [push, dequeAppend, smoothedBpm, mkCandidate, defaultConfig,
      StabState.init, zone, m0, DEFAULT_USER, abs_lt]

/-- C3: after a prior publish, a candidate in the same zone as the previous
reading whose smoothed-rate delta is strictly below `min_bpm_delta` is
suppressed: `push` returns `none` and the published reading is unchanged. -/
theorem c3_jitter_suppression (cfg : HeartStabilizerConfig) (st : StabState)
    (ts bpm : ℚ) (m : PushMeta) (prev : HeartState)
    (hprev : st.latest = some prev)
    (hz : zone (smoothedBpm (dequeAppend cfg.smoothing_window st.samples ⟨ts, bpm⟩))
      = zone prev.bpm)
    (hd : |smoothedBpm (dequeAppend cfg.smoothing_window st.samples ⟨ts, bpm⟩) - prev.bpm|
      < cfg.min_bpm_delta) :
    (push cfg st ts bpm m).1 = none ∧
    (push cfg st ts bpm m).2.latest = some prev := by
  simp only [push, hprev]
  rw [if_pos ⟨hz, hd⟩]
  exact ⟨rfl, rfl⟩

/-- C3 witness: with the default config, pushing 70 on a fresh stabilizer and
then 72 one second later suppresses the second sample and keeps the first
published reading. -/
theorem c3_jitter_suppression_witness :
    (push defaultConfig (push defaultConfig StabState.init 0 70 m0).2 1 72 m0).1
        = none ∧
    (push defaultConfig (push defaultConfig StabState.init 0 70 m0).2 1 72 m0).2.latest
      = some { bpm := 70, timestamp := 0 } :=
  c3_jitter_suppression defaultConfig (push defaultConfig StabState.init 0 70 m0).2
    1 72 m0 { bpm := 70, timestamp := 0 }
    (by norm_num [push, dequeAppend, smoothedBpm, mkCandidate, defaultConfig,
      StabState.init, m0, DEFAULT_USER])
    (by norm_num [push, dequeAppend, smoothedBpm, mkCandidate, defaultConfig,
      StabState.init, zone, m0, DEFAULT_USER])
    (by norm_num [push, dequeAppend, smoothedBpm, mkCandidate, defaultConfig,
      StabState.init, m0, DEFAULT_USER, abs_lt])

/-- C4: with no prior published reading, `push` publishes unconditionally for
every configuration: it returns the smoothed candidate, records it as latest
and sets the last-publish timestamp to the sample's timestamp. -/
theorem c4_bootstrap_publish (cfg : HeartStabilizerConfig) (st : StabState)
    (ts bpm : ℚ) (m : PushMeta) (h : st.latest = none) :
    push cfg st ts bpm m =
      (some (mkCandidate
          (smoothedBpm (dequeAppend cfg.smoothing_window st.samples ⟨ts, bpm⟩)) m ts),
        { samples := dequeAppend cfg.smoothing_window st.samples ⟨ts, bpm⟩,
          latest := some (mkCandidate
            (smoothedBpm (dequeAppend cfg.smoothing_window st.samples ⟨ts, bpm⟩)) m ts),
          last_publish_ts := ts }) := by
  simp only [push, h]

/-- An extreme configuration, to exhibit that bootstrap ignores thresholds. -/
def extremeConfig : HeartStabilizerConfig :=
  { smoothing_window := 3
    min_bpm_delta := 1000
    min_seconds_between_updates := 999
    min_zone_dwell := 999
    fast_zone_delta := 1000 }

/-- C4 witness: even under extreme thresholds, the first push on a fresh
stabilizer publishes the candidate and records it. -/
theorem c4_bootstrap_publish_witness :
    push extremeConfig StabState.init 5 42 m0 =
      (some (mkCandidate
          (smoothedBpm (dequeAppend extremeConfig.smoothing_window
            StabState.init.samples ⟨5, 42⟩)) m0 5),
        { samples := dequeAppend extremeConfig.smoothing_window
            StabState.init.samples ⟨5, 42⟩,
          latest := some (mkCandidate
            (smoothedBpm (dequeAppend extremeConfig.smoothing_window
              StabState.init.samples ⟨5, 42⟩)) m0 5),
          last_publish_ts := 5 }) :=
  c4_bootstrap_publish extremeConfig StabState.init 5 42 m0 rfl

/-- C5: `ingest` always returns a usable reading: the freshly published one
when the stabilizer publishes, the current stable reading (stabilizer latest,
else repository) when the sample is suppressed, or the ad hoc reading built
directly from the raw sample when neither exists. -/
theorem c5_ingest_always_returns (cfg : HeartStabilizerConfig)
    (sv : ServiceState) (ts : ℚ) (hour : Nat) (req : HeartIngestRequest) :
    (∃ s, (ingestPush cfg sv ts hour req).1 = some s ∧
        (ingest cfg sv ts hour req).1 = s.toDTO) ∨
    ((ingestPush cfg sv ts hour req).1 = none ∧
      ∃ s, ((ingestPush cfg sv ts hour req).2.latest.orElse
          (fun _ => (contextFor sv (ingestUid req)).repo)) = some s ∧
        (ingest cfg sv ts hour req).1 = s.toDTO) ∨
    ((ingestPush cfg sv ts hour req).1 = none ∧
      ((ingestPush cfg sv ts hour req).2.latest.orElse
          (fun _ => (contextFor sv (ingestUid req)).repo)) = none ∧
      (ingest cfg sv ts hour req).1 =
        (adHocState req (ingestUid req) (ingestTod req hour) ts).toDTO) := by
  rcases h1 : (ingestPush cfg sv ts hour req).1 with _ | s
  · rcases h2 : ((ingestPush cfg sv ts hour req).2.latest.orElse
        (fun _ => (contextFor sv (ingestUid req)).repo)) with _ | s
    · exact Or.inr (Or.inr ⟨rfl, rfl, by simp [ingest, h1, h2]⟩)
    · exact Or.inr (Or.inl ⟨rfl, s, rfl, by simp [ingest, h1, h2]⟩)
  · exact Or.inl ⟨s, rfl, by simp [ingest, h1]⟩

/-- C6: a run of `push` calls that are all suppressed leaves the published
reading and the last-publish timestamp untouched, while the rolling window
still advances by every sample; hence `latest` still returns the last
published reading afterwards. -/
theorem c6_suppressed_run_frame (cfg : HeartStabilizerConfig) (st : StabState)
    (l : List PushInput)
    (h : ∀ o ∈ (runPushes cfg st l).1, o = none) :
    (runPushes cfg st l).2.latest = st.latest ∧
    (runPushes cfg st l).2.last_publish_ts = st.last_publish_ts ∧
    (runPushes cfg st l).2.samples =
      l.foldl (fun xs i => dequeAppend cfg.smoothing_window xs ⟨i.ts, i.bpm⟩)
        st.samples := by
  induction l generalizing st with
  | nil => exact ⟨rfl, rfl, rfl⟩
  | cons i rest ih =>
      have hrun : runPushes cfg st (i :: rest) =
          ((push cfg st i.ts i.bpm i.m).1 ::
              (runPushes cfg (push cfg st i.ts i.bpm i.m).2 rest).1,
            (runPushes cfg (push cfg st i.ts i.bpm i.m).2 rest).2) := rfl
      have h0 : (push cfg st i.ts i.bpm i.m).1 = none := by
        apply h
        rw [hrun]
        exact List.mem_cons_self _ _
      have hrest : ∀ o ∈ (runPushes cfg (push cfg st i.ts i.bpm i.m).2 rest).1,
          o = none := by
        intro o ho
        apply h
        rw [hrun]
        exact List.mem_cons_of_mem _ ho
      have hframe := push_none_frame cfg st i.ts i.bpm i.m h0
      obtain ⟨h1, h2, h3⟩ := ih (push cfg st i.ts i.bpm i.m).2 hrest
      rw [hrun, List.foldl_cons]
      refine ⟨?_, ?_, ?_⟩
      · rw [show ((push cfg st i.ts i.bpm i.m).1 ::
            (runPushes cfg (push cfg st i.ts i.bpm i.m).2 rest).1,
            (runPushes cfg (push cfg st i.ts i.bpm i.m).2 rest).2).2
            = (runPushes cfg (push cfg st i.ts i.bpm i.m).2 rest).2 from rfl,
          h1, hframe]
      · rw [show ((push cfg st i.ts i.bpm i.m).1 ::
            (runPushes cfg (push cfg st i.ts i.bpm i.m).2 rest).1,
            (runPushes cfg (push cfg st i.ts i.bpm i.m).2 rest).2).2
            = (runPushes cfg (push cfg st i.ts i.bpm i.m).2 rest).2 from rfl,
          h2, hframe]
      · rw [show ((push cfg st i.ts i.bpm i.m).1 ::
            (runPushes cfg (push cfg st i.ts i.bpm i.m).2 rest).1,
            (runPushes cfg (push cfg st i.ts i.bpm i.m).2 rest).2).2
            = (runPushes cfg (push cfg st i.ts i.bpm i.m).2 rest).2 from rfl,
          h3, hframe]

/-- C6 witness: after a bootstrap publish of 70, the suppressed push of 72 one
second later leaves the published reading, the publish timestamp and hence
`latest` unchanged, while the window still appended the sample. -/
theorem c6_suppressed_run_frame_witness :
    (runPushes defaultConfig (push defaultConfig StabState.init 0 70 m0).2
        [⟨1, 72, m0⟩]).2.latest
      = (push defaultConfig StabState.init 0 70 m0).2.latest ∧
    (runPushes defaultConfig (push defaultConfig StabState.init 0 70 m0).2
        [⟨1, 72, m0⟩]).2.last_publish_ts
      = (push defaultConfig StabState.init 0 70 m0).2.last_publish_ts ∧
    (runPushes defaultConfig (push defaultConfig StabState.init 0 70 m0).2
        [⟨1, 72, m0⟩]).2.samples =
      [(⟨1, 72, m0⟩ : PushInput)].foldl
        (fun xs i => dequeAppend defaultConfig.smoothing_window xs ⟨i.ts, i.bpm⟩)
        (push defaultConfig StabState.init 0 70 m0).2.samples :=
  c6_suppressed_run_frame defaultConfig
    (push defaultConfig StabState.init 0 70 m0).2 [⟨1, 72, m0⟩]
    (by
      intro o ho
      have hor : o =
          (push defaultConfig (push defaultConfig StabState.init 0 70 m0).2
            1 72 m0).1 := by
        simpa [runPushes] using ho
      rw [hor]
      norm_num [push, dequeAppend, smoothedBpm, mkCandidate, defaultConfig,
        StabState.init, zone, m0, DEFAULT_USER, abs_lt])

/-- A request carrying only a rate of 70. -/
def req70 : HeartIngestRequest := { bpm := 70 }

/-- A request carrying only a rate of 95. -/
def req95 : HeartIngestRequest := { bpm := 95 }

/-- A request carrying only a rate of 72. -/
def req72 : HeartIngestRequest := { bpm := 72 }

/-- A service that has already ingested one sample for the default user. -/
def sv1 : ServiceState := (ingest defaultConfig ServiceState.init 0 10 req70).2

/-- C7: after `reset uid`, an ingest for that user behaves exactly like the
first-ever contact: it returns the same reading as on a brand-new service,
stores the same per-user context, and that reading is the bootstrap publish
of the smoothed candidate. -/
theorem c7_reset_bootstrap (cfg : HeartStabilizerConfig) (sv : ServiceState)
    (ts : ℚ) (hour : Nat) (req : HeartIngestRequest) (uid : String)
    (h : ingestUid req = uid) :
    (ingest cfg (reset sv uid) ts hour req).1
      = (ingest cfg ServiceState.init ts hour req).1 ∧
    (ingest cfg (reset sv uid) ts hour req).2.contexts uid
      = (ingest cfg ServiceState.init ts hour req).2.contexts uid ∧
    (ingest cfg (reset sv uid) ts hour req).1 =
      (mkCandidate
        (smoothedBpm (dequeAppend cfg.smoothing_window [] ⟨ts, req.bpm⟩))
        (ingestMeta req uid (ingestTod req hour)) ts).toDTO := by
  subst h
  refine ⟨?_, ?_, ?_⟩ <;>
    simp [ingest, ingestPush, contextFor, reset, ServiceState.init,
      ServiceState.setCtx, push, StabState.init]

/-- C7 witness: on a service that already holds state for the default user,
resetting that user and pushing 95 returns the same bootstrap reading as on
a fresh service. -/
theorem c7_reset_bootstrap_witness :
    (ingest defaultConfig (reset sv1 "default") 1 10 req95).1
      = (ingest defaultConfig ServiceState.init 1 10 req95).1 ∧
    (ingest defaultConfig (reset sv1 "default") 1 10 req95).2.contexts "default"
      = (ingest defaultConfig ServiceState.init 1 10 req95).2.contexts "default" ∧
    (ingest defaultConfig (reset sv1 "default") 1 10 req95).1 =
      (mkCandidate
        (smoothedBpm (dequeAppend defaultConfig.smoothing_window [] ⟨1, 95⟩))
        (ingestMeta req95 "default" (ingestTod req95 10)) 1).toDTO :=
  c7_reset_bootstrap defaultConfig sv1 1 10 req95 "default" rfl

/-- C8: the zone classifier is total and monotone in the band ordering, and
with the default boundary table it partitions the rates into exactly the
seven ordered bands below 60, 90, 120, 150, 180, 200 and at or above 200. -/
theorem c8_zone_total_monotone (r1 r2 r : ℚ) (h : r1 ≤ r2) :
    (zone r1).idx ≤ (zone r2).idx ∧
    (zone r = Zone.rest ↔ r < 60) ∧
    (zone r = Zone.light ↔ 60 ≤ r ∧ r < 90) ∧
    (zone r = Zone.moderate ↔ 90 ≤ r ∧ r < 120) ∧
    (zone r = Zone.hard ↔ 120 ≤ r ∧ r < 150) ∧
    (zone r = Zone.peak ↔ 150 ≤ r ∧ r < 180) ∧
    (zone r = Zone.redline ↔ 180 ≤ r ∧ r < 200) ∧
    (zone r = Zone.supra ↔ 200 ≤ r) := by
  constructor
  · unfold zone
    split_ifs <;> simp [Zone.idx] <;> linarith
  · unfold zone
    split_ifs with h1 h2 h3 h4 h5 h6 <;>
      refine ⟨?_, ?_, ?_, ?_, ?_, ?_, ?_⟩ <;>
      constructor <;>
      intro hx <;>
      first
        | rfl
        | exact absurd hx (by decide)
        | linarith
        | exact ⟨by linarith, by linarith⟩

/-- C8 witness: 50 maps to a band no higher than 100's, and 95 is in the
"moderate" band. -/
theorem c8_zone_total_monotone_witness :
    (zone 50).idx ≤ (zone 100).idx ∧
    (zone 95 = Zone.rest ↔ (95 : ℚ) < 60) ∧
    (zone 95 = Zone.light ↔ (60 : ℚ) ≤ 95 ∧ (95 : ℚ) < 90) ∧
    (zone 95 = Zone.moderate ↔ (90 : ℚ) ≤ 95 ∧ (95 : ℚ) < 120) ∧
    (zone 95 = Zone.hard ↔ (120 : ℚ) ≤ 95 ∧ (95 : ℚ) < 150) ∧
    (zone 95 = Zone.peak ↔ (150 : ℚ) ≤ 95 ∧ (95 : ℚ) < 180) ∧
    (zone 95 = Zone.redline ↔ (180 : ℚ) ≤ 95 ∧ (95 : ℚ) < 200) ∧
    (zone 95 = Zone.supra ↔ (200 : ℚ) ≤ 95) :=
  c8_zone_total_monotone 50 100 95 (by norm_num)

/-- `dequeAppend` preserves the capacity bound. -/
theorem dequeAppend_length_le (cap : Nat) (xs : List HeartRateSample)
    (s : HeartRateSample) (h : xs.length ≤ cap) :
    (dequeAppend cap xs s).length ≤ cap := by
  unfold dequeAppend
  split_ifs with h0 h1
  · simp
  · simp only [List.length_append, List.length_tail, List.length_singleton]
    omega
  · simp only [List.length_append, List.length_singleton]
    omega

/-- Any run of pushes keeps the window within the configured capacity. -/
theorem runPushes_length_le (cfg : HeartStabilizerConfig) (st : StabState)
    (l : List PushInput) (h : st.samples.length ≤ cfg.smoothing_window) :
    (runPushes cfg st l).2.samples.length ≤ cfg.smoothing_window := by
  induction l generalizing st with
  | nil => exact h
  | cons i rest ih =>
      show (runPushes cfg (push cfg st i.ts i.bpm i.m).2 rest).2.samples.length
        ≤ cfg.smoothing_window
      apply ih
      rw [push_samples_eq]
      exact dequeAppend_length_le _ _ _ h

/-- C9: starting from a window within capacity, no sequence of pushes ever
grows the window beyond the configured capacity; a push arriving with the
window exactly full evicts the oldest sample (FIFO) and, whenever the
capacity is positive, the new sample ends up as the most recent entry. -/
theorem c9_window_capacity (cfg : HeartStabilizerConfig) (st : StabState)
    (ts bpm : ℚ) (m : PushMeta) (l : List PushInput)
    (h : st.samples.length ≤ cfg.smoothing_window) :
    (runPushes cfg st l).2.samples.length ≤ cfg.smoothing_window ∧
    (st.samples.length = cfg.smoothing_window → 0 < cfg.smoothing_window →
      (push cfg st ts bpm m).2.samples = st.samples.tail ++ [⟨ts, bpm⟩]) ∧
    (0 < cfg.smoothing_window →
      ((push cfg st ts bpm m).2.samples).getLast? = some ⟨ts, bpm⟩) := by
  refine ⟨runPushes_length_le cfg st l h, ?_, ?_⟩
  · intro hfull hpos
    rw [push_samples_eq]
    unfold dequeAppend
    rw [if_neg (by omega), if_pos (le_of_eq hfull.symm)]
  · intro hpos
    rw [push_samples_eq]
    unfold dequeAppend
    split_ifs with h0 h1
    · omega
    · simp
    · simp

/-- A stabilizer whose window is exactly at the default capacity. -/
def fullSt : StabState :=
  { samples := [⟨0, 70⟩, ⟨1, 71⟩, ⟨2, 72⟩, ⟨3, 73⟩, ⟨4, 74⟩] }

/-- C9 witness: with the default capacity-5 window already full, a run keeps
the bound and the next push evicts the oldest sample, appending the new one
as most recent. -/
theorem c9_window_capacity_witness :
    (runPushes defaultConfig fullSt [⟨5, 75, m0⟩]).2.samples.length
      ≤ defaultConfig.smoothing_window ∧
    (push defaultConfig fullSt 5 75 m0).2.samples
      = fullSt.samples.tail ++ [⟨5, 75⟩] ∧
    ((push defaultConfig fullSt 5 75 m0).2.samples).getLast? = some ⟨5, 75⟩ := by
  have h := c9_window_capacity defaultConfig fullSt 5 75 m0 [⟨5, 75, m0⟩]
    (by decide)
  exact ⟨h.1, h.2.1 (by decide) (by decide), h.2.2 (by decide)⟩

/-- A suppressed push leaves the published reading untouched. -/
theorem push_none_latest (cfg : HeartStabilizerConfig) (st : StabState)
    (ts bpm : ℚ) (m : PushMeta) (h : (push cfg st ts bpm m).1 = none) :
    (push cfg st ts bpm m).2.latest = st.latest := by
  rw [push_none_frame cfg st ts bpm m h]

/-- C10: whenever the stabilizer suppresses an ingested sample, its latest
published reading exists, and `ingest` returns exactly that reading — the ad
hoc fallback that fabricates a reading from the raw sample is unreachable. -/
theorem c10_no_adhoc_fallback (cfg : HeartStabilizerConfig)
    (sv : ServiceState) (ts : ℚ) (hour : Nat) (req : HeartIngestRequest)
    (h : (ingestPush cfg sv ts hour req).1 = none) :
    ((ingestPush cfg sv ts hour req).2.latest).map HeartState.toDTO
      = some ((ingest cfg sv ts hour req).1) := by
  have h' : (push cfg (contextFor sv (ingestUid req)).stab ts req.bpm
      (ingestMeta req (ingestUid req) (ingestTod req hour))).1 = none := h
  obtain ⟨prev, hprev⟩ := push_none_prev _ _ _ _ _ h'
  have hl : (ingestPush cfg sv ts hour req).2.latest = some prev := by
    have hl' := push_none_latest _ _ _ _ _ h'
    rw [hprev] at hl'
    exact hl'
  have hres : (ingest cfg sv ts hour req).1 = prev.toDTO := by
    simp [ingest, h, hl, Option.orElse]
  rw [hl, hres]
  rfl

/-- C10 witness: the second ingest for the default user (72 right after 70) is
suppressed, its stabilizer still holds a published reading, and ingest
surfaces that reading. -/
theorem c10_no_adhoc_fallback_witness :
    (ingestPush defaultConfig sv1 1 10 req72).1 = none ∧
    ((ingestPush defaultConfig sv1 1 10 req72).2.latest).map HeartState.toDTO
      = some ((ingest defaultConfig sv1 1 10 req72).1) := by
  have h : (ingestPush defaultConfig sv1 1 10 req72).1 = none := by
    norm_num [ingestPush, ingest, contextFor, ServiceState.init,
      ServiceState.setCtx, ingestUid, ingestTod, ingestMeta, timeOfDayBucket,
      push, dequeAppend, smoothedBpm, mkCandidate, defaultConfig,
      StabState.init, zone, sv1, req70, req72, DEFAULT_USER, abs_lt]
  exact ⟨h, c10_no_adhoc_fallback defaultConfig sv1 1 10 req72 h⟩

end VibeSense
